import Mathlib

/-!
Verification of the snmp-agent repository's natural-language specification
against a shallow embedding of its Python source.

The embedding translates, definition by definition:
* `src/agent/snmp_agent.py` (class `SimpleSNMPAgent`, the agent actually
  instantiated by `src/main.py`): OID table projection, GET / GETNEXT /
  GETBULK dispatch, community check;
* `src/core/models.py` (`MachineInfo.display_name` and the snapshot records);
* `src/core/data_manager.py` (`DataManager.add_machine`,
  `update_snapshot`, `remove_machine`);
* `src/collectors/snmp_collector.py` (the UCD memory block of
  `collect_all_simple`);
* `src/discovery/network_scanner.py` (`ping_sweep` host capping).

Machine integers are `Int`/`Nat`; Python floats are modelled as exact
rationals `ℚ` (every concrete value appearing in a claim is exactly
representable in binary floating point, so no rounding discrepancy is
hidden by this choice); Python `None` is `Option.none`; dictionaries are
association lists with unique keys.
-/

namespace SnmpAgent

/-! ### OIDs

`SimpleSNMPAgent` keys its `_oid_data` dict by dotted OID strings and
compares them as tuples of ints (`_oid_to_tuple`); we represent an OID
directly as its list of numeric components.  `oidLt` is Python's tuple
`<`: lexicographic, with a strict prefix smaller than its extension. -/

abbrev Oid := List Nat

def oidLt : Oid → Oid → Bool
  | [], [] => false
  | [], _ :: _ => true
  | _ :: _, [] => false
  | a :: as, b :: bs => if a < b then true else if b < a then false else oidLt as bs

theorem oidLt_irrefl (o : Oid) : oidLt o o = false := by
  induction o with
  | nil => rfl
  | cons a as ih => simp [oidLt, ih]

theorem oidLt_trans {a b c : Oid} (hab : oidLt a b = true) (hbc : oidLt b c = true) :
    oidLt a c = true := by
  induction a generalizing b c with
  | nil =>
    cases b with
    | nil => simp [oidLt] at hab
    | cons y ys =>
      cases c with
      | nil => simp [oidLt] at hbc
      | cons z zs => simp [oidLt]
  | cons x xs ih =>
    cases b with
    | nil => simp [oidLt] at hab
    | cons y ys =>
      cases c with
      | nil => simp [oidLt] at hbc
      | cons z zs =>
        simp only [oidLt] at hab hbc ⊢
        split_ifs at hab hbc ⊢ with h1 h2 h3 h4 h5 h6
        all_goals try rfl
        all_goals try omega
        · exact ih hab hbc

theorem oidLt_asymm {a b : Oid} (h : oidLt a b = true) : oidLt b a = false := by
  by_contra hc
  have hba : oidLt b a = true := by
    cases hx : oidLt b a with
    | false => exact absurd hx hc
    | true => rfl
  have := oidLt_trans h hba
  rw [oidLt_irrefl] at this
  exact Bool.false_ne_true this

/-! ### SNMP values

`_oid_data` holds Python ints and strings.  `_to_snmp_value`
(snmp_agent.py lines 495-501) converts an int above `2147483647` to
`Counter64`, other ints to `Integer32`, and everything else to an
`OctetString` of its string form. -/

inductive SnmpVal where
  | int (n : Int)
  | str (s : String)
deriving DecidableEq

inductive RfcVal where
  | integer32 (n : Int)
  | counter64 (n : Int)
  | octetString (s : String)
deriving DecidableEq

def toSnmpValue : SnmpVal → RfcVal
  | .int n => if n > 2147483647 then .counter64 n else .integer32 n
  | .str s => .octetString s

/-- A variable-binding value in a response: a typed value, or one of the
two rfc1905 sentinels used by the agent. -/
inductive VarBindVal where
  | val (v : RfcVal)
  | noSuchInstance
  | endOfMibView
deriving DecidableEq

/-! ### The agent's OID table

The agent state is the `_oid_data` dict together with `_sorted_oids`,
the key list sorted by numeric tuple order.  We carry both as one
association list of (key, value) pairs; the GETNEXT-style operations
below scan it in list order, exactly as `_get_next_oid` scans
`_sorted_oids`, so sortedness of the list is stated as a hypothesis
(`SortedEntries`) where a theorem needs it. -/

abbrev Entries := List (Oid × SnmpVal)

/-- Python dict lookup `self._oid_data.get(oid)` (keys are unique in a dict;
on such lists first-match lookup agrees with dict lookup). -/
def alookup : Entries → Oid → Option SnmpVal
  | [], _ => none
  | e :: rest, k => if e.1 = k then some e.2 else alookup rest k

/-- `_get_next_oid` (snmp_agent.py lines 487-493): scan the sorted key
list, return the first key strictly greater than the target (paired here
with its dict value). -/
def getNextEntry (entries : Entries) (target : Oid) : Option (Oid × SnmpVal) :=
  entries.find? (fun e => oidLt target e.1)

/-- Keys of the table strictly greater than `o` (used to state the
corrected GETBULK count). -/
def strictSuccCount (entries : Entries) (o : Oid) : Nat :=
  (entries.filter (fun e => oidLt o e.1)).length

/-- The table as maintained by the agent: keys in strictly increasing
tuple order (what `sorted(..., key=tuple)` over distinct dict keys
produces). -/
def SortedEntries (entries : Entries) : Prop :=
  List.Pairwise (fun a b => oidLt a.1 b.1 = true) entries

/-- GET on one var-bind (snmp_agent.py lines 535-542). -/
def handleGetVb (entries : Entries) (oid : Oid) : Oid × VarBindVal :=
  match alookup entries oid with
  | some v => (oid, .val (toSnmpValue v))
  | none => (oid, .noSuchInstance)

/-- GETNEXT on one var-bind (snmp_agent.py lines 544-555). -/
def handleGetNextVb (entries : Entries) (oid : Oid) : Oid × VarBindVal :=
  match getNextEntry entries oid with
  | some e => (e.1, .val (toSnmpValue e.2))
  | none => (oid, .endOfMibView)

/-- One GETBULK repeater stream (snmp_agent.py lines 576-592): up to
`max_rep` GETNEXT steps; on the first step that walks off the end, emit
`endOfMibView` for the current position and stop the stream. -/
def bulkRepeat (entries : Entries) : Oid → Nat → List (Oid × VarBindVal)
  | _, 0 => []
  | cur, fuel + 1 =>
    match getNextEntry entries cur with
    | some e => (e.1, .val (toSnmpValue e.2)) :: bulkRepeat entries e.1 fuel
    | none => [(cur, .endOfMibView)]

/-- GETBULK (snmp_agent.py lines 557-592): the first
`min(non_repeaters, len(var_binds))` var-binds are single GETNEXTs, the
rest are repeater streams. -/
def handleGetBulk (entries : Entries) (nonRep maxRep : Nat) (oids : List Oid) :
    List (Oid × VarBindVal) :=
  ((oids.take nonRep).map (handleGetNextVb entries)) ++
    ((oids.drop nonRep).flatMap (fun o => bulkRepeat entries o maxRep))

/-! ### Requests and dispatch -/

inductive SnmpPdu where
  | getRequest (oids : List Oid)
  | getNextRequest (oids : List Oid)
  | getBulkRequest (nonRep maxRep : Nat) (oids : List Oid)
  | otherPdu
deriving DecidableEq

/-- A decoded SNMP v2c message (community string plus PDU). -/
structure SnmpMessage where
  community : String
  requestId : Int
  pdu : SnmpPdu
deriving DecidableEq

structure SnmpResponse where
  community : String
  requestId : Int
  varBinds : List (Oid × VarBindVal)
deriving DecidableEq

def dispatchPdu (entries : Entries) : SnmpPdu → List (Oid × VarBindVal)
  | .getRequest oids => oids.map (handleGetVb entries)
  | .getNextRequest oids => oids.map (handleGetNextVb entries)
  | .getBulkRequest k r oids => handleGetBulk entries k r oids
  | .otherPdu => []

/-- `SimpleSNMPAgent.handle_snmp_message` (snmp_agent.py lines 503-600)
at the level of decoded messages: the community string is compared
against the hardcoded literal `"public"` (line 517) — the class receives
only a port, never the configured read-community — and on mismatch the
datagram is dropped (`None`, hence no response datagram is sent). -/
def handle_snmp_message (entries : Entries) (msg : SnmpMessage) : Option SnmpResponse :=
  if msg.community = "public" then
    some ⟨msg.community, msg.requestId, dispatchPdu entries msg.pdu⟩
  else
    none

/-- `SNMPConfig` (config.py lines 15-20): the configured community
strings.  `SimpleSNMPAgent` is constructed from it with
`SimpleSNMPAgent(self.data_manager, config.snmp.port)` (main.py line 57),
passing the port only. -/
structure SNMPConfig where
  port : Nat := 1161
  community_read : String := "public"
  community_write : String := "private"
deriving DecidableEq

/-! ### Data model (`src/core/models.py`)

Python floats appear as exact rationals; timestamps as an abstract `Nat`
tick value (`datetime.now()` is an external clock; only `last_seen`'s
always-overwrite rule is relevant to the claims).  Note the
`HardwareSnapshot` dataclass (models.py lines 228-240) has **no**
`custom_metrics` field. -/

structure MachineInfo where
  ip : String
  hostname : String := "unknown"
  os_type : String := "unknown"
  os_version : String := ""
  uptime_seconds : Int := 0
  last_seen : Nat := 0
  is_online : Bool := true
  collection_method : String := "unknown"
  mac_address : String := ""
  vendor : String := ""
  snmp_active : Bool := false
  dns_name : String := ""
  mdns_name : String := ""
  netbios_name : String := ""
  snmp_sysname : String := ""
deriving DecidableEq

/-- `MachineInfo.display_name` (models.py lines 34-48): each name slot is
used only when truthy (non-empty) and different from `"unknown"`; the
final fallback is the IP. -/
def MachineInfo.display_name (m : MachineInfo) : String :=
  if m.snmp_sysname ≠ "" ∧ m.snmp_sysname ≠ "unknown" then m.snmp_sysname
  else if m.mdns_name ≠ "" ∧ m.mdns_name ≠ "unknown" then m.mdns_name
  else if m.netbios_name ≠ "" ∧ m.netbios_name ≠ "unknown" then m.netbios_name
  else if m.dns_name ≠ "" ∧ m.dns_name ≠ "unknown" then m.dns_name
  else if m.hostname ≠ "" ∧ m.hostname ≠ "unknown" then m.hostname
  else m.ip

structure CPUMetrics where
  usage_percent : ℚ := 0
  core_count : Int := 0
  thread_count : Int := 0
  frequency_mhz : ℚ := 0
  frequency_max_mhz : ℚ := 0
  frequency_min_mhz : ℚ := 0
  temperature_celsius : Option ℚ := none
  load_1m : ℚ := 0
  load_5m : ℚ := 0
  load_15m : ℚ := 0
  model_name : String := ""
  architecture : String := ""
deriving DecidableEq

structure MemoryMetrics where
  total_bytes : Int := 0
  used_bytes : Int := 0
  available_bytes : Int := 0
  cached_bytes : Int := 0
  buffers_bytes : Int := 0
  usage_percent : ℚ := 0
  swap_total_bytes : Int := 0
  swap_used_bytes : Int := 0
  swap_free_bytes : Int := 0
  swap_usage_percent : ℚ := 0
deriving DecidableEq

structure StorageDevice where
  device : String := ""
  mount_point : String := ""
  fs_type : String := ""
  total_bytes : Int := 0
  used_bytes : Int := 0
  free_bytes : Int := 0
  usage_percent : ℚ := 0
  is_removable : Bool := false
  is_ssd : Bool := false
  model : String := ""
  serial : String := ""
deriving DecidableEq

structure StorageMetrics where
  devices : List StorageDevice := []
deriving DecidableEq

structure PowerMetrics where
  cpu_power_watts : Option ℚ := none
  package_power_watts : Option ℚ := none
  dram_power_watts : Option ℚ := none
  battery_percent : Option ℚ := none
  battery_time_remaining_seconds : Option Int := none
  is_plugged_in : Option Bool := none
  power_source : String := "unknown"
deriving DecidableEq

structure NetworkInterface where
  name : String := ""
  mac_address : String := ""
  ipv4_address : String := ""
  ipv6_address : String := ""
  is_up : Bool := false
  speed_mbps : Int := 0
  bytes_sent : Int := 0
  bytes_recv : Int := 0
  packets_sent : Int := 0
  packets_recv : Int := 0
  errors_in : Int := 0
  errors_out : Int := 0
deriving DecidableEq

structure NetworkMetrics where
  interfaces : List NetworkInterface := []
deriving DecidableEq

/-- `HardwareSnapshot` (models.py lines 228-240).  Its fields are exactly
`machine, cpu, memory, storage, power, network, timestamp,
collection_duration_ms, errors`; there is no `custom_metrics` field. -/
structure HardwareSnapshot where
  machine : MachineInfo
  cpu : CPUMetrics := {}
  memory : MemoryMetrics := {}
  storage : StorageMetrics := {}
  power : PowerMetrics := {}
  network : NetworkMetrics := {}
  timestamp : Nat := 0
  collection_duration_ms : ℚ := 0
  errors : List String := []
deriving DecidableEq

/-! ### Fleet store (`src/core/data_manager.py`)

The two dicts `_machines : ip → MachineInfo` and
`_snapshots : ip → HardwareSnapshot` are association lists with unique
keys; `dictSet` models dict assignment (replace in place or append) and
`dictDel` models `del`. -/

def dictLookup {α : Type} : List (String × α) → String → Option α
  | [], _ => none
  | e :: rest, k => if e.1 = k then some e.2 else dictLookup rest k

def dictSet {α : Type} (l : List (String × α)) (k : String) (v : α) : List (String × α) :=
  if l.any (fun e => e.1 = k) then
    l.map (fun e => if e.1 = k then (k, v) else e)
  else
    l ++ [(k, v)]

def dictDel {α : Type} (l : List (String × α)) (k : String) : List (String × α) :=
  l.filter (fun e => ¬ e.1 = k)

structure DataManagerState where
  machines : List (String × MachineInfo) := []
  snapshots : List (String × HardwareSnapshot) := []
deriving DecidableEq

def DataManagerState.get_machine (st : DataManagerState) (ip : String) : Option MachineInfo :=
  dictLookup st.machines ip

def DataManagerState.get_snapshot (st : DataManagerState) (ip : String) :
    Option HardwareSnapshot :=
  dictLookup st.snapshots ip

/-- The `method_priority` dict of `add_machine` (data_manager.py line
102): `{'snmp': 4, 'ssh': 3, 'local': 2, 'arp': 1}` read with
`.get(method, 0)` — any other method, including `'ping'`, `'static'` and
`'unknown'`, gets priority 0. -/
def method_priority (m : String) : Nat :=
  if m = "snmp" then 4
  else if m = "ssh" then 3
  else if m = "local" then 2
  else if m = "arp" then 1
  else 0

/-- The field-by-field merge of `add_machine` when the IP already exists
(data_manager.py lines 60-106).  `existing` is the stored record, `new`
the incoming one.  The `sys_descr` branch of the source (line 84) is a
no-op because the `MachineInfo` dataclass has no `sys_descr` attribute,
so `hasattr` is false; it is omitted here. -/
def mergeMachine (existing new : MachineInfo) : MachineInfo :=
  { existing with
    hostname :=
      if new.hostname ≠ "" ∧ new.hostname ≠ "unknown" ∧ new.hostname ≠ new.ip then
        new.hostname
      else existing.hostname
    os_type := if new.os_type ≠ "" ∧ new.os_type ≠ "unknown" then new.os_type
      else existing.os_type
    os_version := if new.os_version ≠ "" then new.os_version else existing.os_version
    uptime_seconds := if new.uptime_seconds > 0 then new.uptime_seconds
      else existing.uptime_seconds
    mac_address := if new.mac_address ≠ "" then new.mac_address else existing.mac_address
    vendor := if new.vendor ≠ "" ∧ new.vendor ≠ "Unknown" then new.vendor
      else existing.vendor
    dns_name := if new.dns_name ≠ "" then new.dns_name else existing.dns_name
    mdns_name := if new.mdns_name ≠ "" then new.mdns_name else existing.mdns_name
    netbios_name := if new.netbios_name ≠ "" then new.netbios_name
      else existing.netbios_name
    is_online := existing.is_online || new.is_online
    last_seen := new.last_seen
    snmp_active := existing.snmp_active || new.snmp_active
    snmp_sysname := if new.snmp_sysname ≠ "" then new.snmp_sysname
      else existing.snmp_sysname
    collection_method :=
      if method_priority new.collection_method > method_priority existing.collection_method
      then new.collection_method
      else existing.collection_method }

/-- `DataManager.add_machine` (data_manager.py lines 56-111): insert
as-is when the IP is new, otherwise merge into the existing record. -/
def add_machine (st : DataManagerState) (m : MachineInfo) : DataManagerState :=
  match dictLookup st.machines m.ip with
  | some existing => { st with machines := dictSet st.machines m.ip (mergeMachine existing m) }
  | none => { st with machines := dictSet st.machines m.ip m }

/-- `DataManager.remove_machine` (data_manager.py lines 113-120). -/
def remove_machine (st : DataManagerState) (ip : String) : DataManagerState :=
  { machines := dictDel st.machines ip
    snapshots := dictDel st.snapshots ip }

/-- The machine record written by `update_snapshot` (data_manager.py
lines 122-141): when the IP is already known, only `mac_address`,
`vendor`, `hostname` and the three resolver name slots are back-filled
from the stored record; all other fields — `snmp_active`,
`collection_method`, `os_type`, `uptime_seconds`, ... — are taken from
`snapshot.machine` as-is. -/
def updateSnapshotMachine (st : DataManagerState) (snap : HardwareSnapshot) : MachineInfo :=
  match dictLookup st.machines snap.machine.ip with
  | some existing =>
    { snap.machine with
      mac_address := if snap.machine.mac_address ≠ "" then snap.machine.mac_address
        else existing.mac_address
      vendor := if snap.machine.vendor ≠ "" ∧ snap.machine.vendor ≠ "Unknown" then
          snap.machine.vendor
        else existing.vendor
      hostname := if snap.machine.hostname ≠ "" ∧ snap.machine.hostname ≠ "unknown" then
          snap.machine.hostname
        else existing.hostname
      dns_name := if snap.machine.dns_name ≠ "" then snap.machine.dns_name
        else existing.dns_name
      mdns_name := if snap.machine.mdns_name ≠ "" then snap.machine.mdns_name
        else existing.mdns_name
      netbios_name := if snap.machine.netbios_name ≠ "" then snap.machine.netbios_name
        else existing.netbios_name }
  | none => snap.machine

/-- `DataManager.update_snapshot` (data_manager.py lines 122-142): the
snapshot's machine is merged as above, then both
`self._snapshots[ip]` and `self._machines[ip]` are set to the snapshot
and its (merged) machine — the stored `MachineInfo` is *replaced*, not
merged field-preservingly. -/
def update_snapshot (st : DataManagerState) (snap : HardwareSnapshot) : DataManagerState :=
  let machine := updateSnapshotMachine st snap
  let ip := snap.machine.ip
  { machines := dictSet st.machines ip machine
    snapshots := dictSet st.snapshots ip { snap with machine := machine } }

/-! ### Python numeric helpers -/

/-- Python `int(x)` on a float: truncation toward zero. -/
def pyInt (q : ℚ) : Int :=
  if q < 0 then -Int.floor (-q) else Int.floor q

/-- Python `round(x)` at integer scale with banker's rounding, the tie
rule used by `format`. -/
def roundHalfEven (q : ℚ) : Int :=
  let f := Int.floor q
  let frac := q - f
  if frac < 1 / 2 then f
  else if frac > 1 / 2 then f + 1
  else if f % 2 = 0 then f else f + 1

/-- Python `f"{x:.2f}"`: fixed-point rendering with two decimals.  (No
claim inspects these strings; the rendering is modelled on the rational
value.) -/
def formatFixed2 (q : ℚ) : String :=
  let n := roundHalfEven (q * 100)
  let sign := if n < 0 then "-" else ""
  let m := n.natAbs
  sign ++ toString (m / 100) ++ "." ++ (if m % 100 < 10 then "0" else "") ++ toString (m % 100)

/-! ### MIB projection of `SimpleSNMPAgent`

OID constants from `src/agent/mib_definitions.py` (enterprise base
`1.3.6.1.4.1.99999`, aggregator subtree `.1`), as numeric lists. -/

def AGENT_VERSION_OID : Oid := [1, 3, 6, 1, 4, 1, 99999, 1, 1, 1, 0]
def AGENT_UPTIME_OID : Oid := [1, 3, 6, 1, 4, 1, 99999, 1, 1, 2, 0]
def MACHINE_COUNT_OID : Oid := [1, 3, 6, 1, 4, 1, 99999, 1, 1, 3, 0]

def MACHINE_INDEX_OID : Oid := [1, 3, 6, 1, 4, 1, 99999, 1, 2, 1, 1]
def MACHINE_IP_OID : Oid := [1, 3, 6, 1, 4, 1, 99999, 1, 2, 1, 2]
def MACHINE_HOSTNAME_OID : Oid := [1, 3, 6, 1, 4, 1, 99999, 1, 2, 1, 3]
def MACHINE_OS_TYPE_OID : Oid := [1, 3, 6, 1, 4, 1, 99999, 1, 2, 1, 4]
def MACHINE_UPTIME_OID : Oid := [1, 3, 6, 1, 4, 1, 99999, 1, 2, 1, 5]
def MACHINE_STATUS_OID : Oid := [1, 3, 6, 1, 4, 1, 99999, 1, 2, 1, 6]

def CPU_INDEX_OID : Oid := [1, 3, 6, 1, 4, 1, 99999, 1, 3, 1, 1]
def CPU_USAGE_PERCENT_OID : Oid := [1, 3, 6, 1, 4, 1, 99999, 1, 3, 1, 2]
def CPU_CORE_COUNT_OID : Oid := [1, 3, 6, 1, 4, 1, 99999, 1, 3, 1, 3]
def CPU_THREAD_COUNT_OID : Oid := [1, 3, 6, 1, 4, 1, 99999, 1, 3, 1, 4]
def CPU_FREQUENCY_MHZ_OID : Oid := [1, 3, 6, 1, 4, 1, 99999, 1, 3, 1, 5]
def CPU_TEMPERATURE_OID : Oid := [1, 3, 6, 1, 4, 1, 99999, 1, 3, 1, 6]
def CPU_LOAD_1M_OID : Oid := [1, 3, 6, 1, 4, 1, 99999, 1, 3, 1, 7]
def CPU_LOAD_5M_OID : Oid := [1, 3, 6, 1, 4, 1, 99999, 1, 3, 1, 8]
def CPU_LOAD_15M_OID : Oid := [1, 3, 6, 1, 4, 1, 99999, 1, 3, 1, 9]
def CPU_MODEL_OID : Oid := [1, 3, 6, 1, 4, 1, 99999, 1, 3, 1, 10]

def MEM_INDEX_OID : Oid := [1, 3, 6, 1, 4, 1, 99999, 1, 4, 1, 1]
def MEM_TOTAL_BYTES_OID : Oid := [1, 3, 6, 1, 4, 1, 99999, 1, 4, 1, 2]
def MEM_USED_BYTES_OID : Oid := [1, 3, 6, 1, 4, 1, 99999, 1, 4, 1, 3]
def MEM_AVAILABLE_BYTES_OID : Oid := [1, 3, 6, 1, 4, 1, 99999, 1, 4, 1, 4]
def MEM_USAGE_PERCENT_OID : Oid := [1, 3, 6, 1, 4, 1, 99999, 1, 4, 1, 5]

def STORAGE_DEVICE_OID : Oid := [1, 3, 6, 1, 4, 1, 99999, 1, 5, 1, 3]
def STORAGE_MOUNT_POINT_OID : Oid := [1, 3, 6, 1, 4, 1, 99999, 1, 5, 1, 4]
def STORAGE_FS_TYPE_OID : Oid := [1, 3, 6, 1, 4, 1, 99999, 1, 5, 1, 5]
def STORAGE_TOTAL_BYTES_OID : Oid := [1, 3, 6, 1, 4, 1, 99999, 1, 5, 1, 6]
def STORAGE_USED_BYTES_OID : Oid := [1, 3, 6, 1, 4, 1, 99999, 1, 5, 1, 7]
def STORAGE_FREE_BYTES_OID : Oid := [1, 3, 6, 1, 4, 1, 99999, 1, 5, 1, 8]
def STORAGE_USAGE_PERCENT_OID : Oid := [1, 3, 6, 1, 4, 1, 99999, 1, 5, 1, 9]

/-- `SimpleSNMPAgent._add_machine_oids` (snmp_agent.py lines 437-479):
the machine, CPU, and memory table rows of one snapshot, plus one
storage row per device (indexed `machineIdx.deviceIdx`, enumerated from
1).  `int(c.temperature_celsius or 0)` collapses `None` to 0 (note
`0.0` is also falsy, so `getD 0` is value-equal to the source `or`). -/
def addMachineOids (idx : Nat) (snap : HardwareSnapshot) : Entries :=
  let m := snap.machine
  let c := snap.cpu
  let mem := snap.memory
  [(MACHINE_INDEX_OID ++ [idx], .int idx),
   (MACHINE_IP_OID ++ [idx], .str m.ip),
   (MACHINE_HOSTNAME_OID ++ [idx], .str m.hostname),
   (MACHINE_OS_TYPE_OID ++ [idx], .str m.os_type),
   (MACHINE_UPTIME_OID ++ [idx], .int (m.uptime_seconds * 100)),
   (MACHINE_STATUS_OID ++ [idx], .int (if m.is_online then 1 else 2)),
   (CPU_INDEX_OID ++ [idx], .int idx),
   (CPU_USAGE_PERCENT_OID ++ [idx], .int (pyInt c.usage_percent)),
   (CPU_CORE_COUNT_OID ++ [idx], .int c.core_count),
   (CPU_THREAD_COUNT_OID ++ [idx], .int c.thread_count),
   (CPU_FREQUENCY_MHZ_OID ++ [idx], .int (pyInt c.frequency_mhz)),
   (CPU_TEMPERATURE_OID ++ [idx], .int (pyInt (c.temperature_celsius.getD 0))),
   (CPU_LOAD_1M_OID ++ [idx], .str (formatFixed2 c.load_1m)),
   (CPU_LOAD_5M_OID ++ [idx], .str (formatFixed2 c.load_5m)),
   (CPU_LOAD_15M_OID ++ [idx], .str (formatFixed2 c.load_15m)),
   (CPU_MODEL_OID ++ [idx], .str c.model_name),
   (MEM_INDEX_OID ++ [idx], .int idx),
   (MEM_TOTAL_BYTES_OID ++ [idx], .int mem.total_bytes),
   (MEM_USED_BYTES_OID ++ [idx], .int mem.used_bytes),
   (MEM_AVAILABLE_BYTES_OID ++ [idx], .int mem.available_bytes),
   (MEM_USAGE_PERCENT_OID ++ [idx], .int (pyInt mem.usage_percent))] ++
  (snap.storage.devices.enumFrom 1).flatMap (fun p =>
    [(STORAGE_DEVICE_OID ++ [idx, p.1], .str p.2.device),
     (STORAGE_MOUNT_POINT_OID ++ [idx, p.1], .str p.2.mount_point),
     (STORAGE_FS_TYPE_OID ++ [idx, p.1], .str p.2.fs_type),
     (STORAGE_TOTAL_BYTES_OID ++ [idx, p.1], .int p.2.total_bytes),
     (STORAGE_USED_BYTES_OID ++ [idx, p.1], .int p.2.used_bytes),
     (STORAGE_FREE_BYTES_OID ++ [idx, p.1], .int p.2.free_bytes),
     (STORAGE_USAGE_PERCENT_OID ++ [idx, p.1], .int (pyInt p.2.usage_percent))])

/-- `SimpleSNMPAgent._update_data` (snmp_agent.py lines 409-435): machine
indices are assigned by enumerating the sorted snapshot keys from 1; the
agent scalars and the per-machine rows together form `_oid_data`.
(`_sorted_oids` is the sorted key list of this table; the GETNEXT-family
theorems take sortedness as the `SortedEntries` hypothesis.)  Note this
projection contains no `custom_metrics` entries: `_add_machine_oids`
reads only machine, cpu, memory and storage fields, and the
`HardwareSnapshot` dataclass has no `custom_metrics` attribute. -/
def updateData (uptimeTicks : Nat) (snaps : List (String × HardwareSnapshot)) : Entries :=
  let sortedIps := (snaps.map (·.1)).insertionSort (· ≤ ·)
  let ipIdx : String → Nat := fun ip => sortedIps.indexOf ip + 1
  [(AGENT_VERSION_OID, .str "1.0.0"),
   (AGENT_UPTIME_OID, .int uptimeTicks),
   (MACHINE_COUNT_OID, .int snaps.length)] ++
  snaps.flatMap (fun p => addMachineOids (ipIdx p.1) p.2)

/-! ### SNMP collector, UCD memory block
(`src/collectors/snmp_collector.py`, `collect_all_simple` lines 490-520)

The six `_get_oid` results are `Option Int` (an SNMP integer or `None`
on failure); Python truthiness makes both `None` and `0` falsy. -/

def pyTruthyInt : Option Int → Bool
  | none => false
  | some n => n != 0

/-- The memory metrics produced from the UCD values: when `memTotal` and
`memAvail` are both truthy, bytes are the KB values times 1024,
`used = total − avail`, and `usage_percent = used / total · 100` (0 when
`total` is 0); otherwise the defaults (all zero) stand. -/
def collectMemoryFromUcd (mem_total mem_avail mem_cached mem_buffer swap_total swap_avail :
    Option Int) : MemoryMetrics :=
  if pyTruthyInt mem_total && pyTruthyInt mem_avail then
    let total_bytes := mem_total.getD 0 * 1024
    let avail_bytes := mem_avail.getD 0 * 1024
    let used_bytes := total_bytes - avail_bytes
    let swap_total_bytes := if pyTruthyInt swap_total then swap_total.getD 0 * 1024 else 0
    let swap_avail_bytes := if pyTruthyInt swap_avail then swap_avail.getD 0 * 1024 else 0
    let swap_used_bytes := swap_total_bytes - swap_avail_bytes
    { total_bytes := total_bytes
      used_bytes := used_bytes
      available_bytes := avail_bytes
      cached_bytes := if pyTruthyInt mem_cached then mem_cached.getD 0 * 1024 else 0
      buffers_bytes := if pyTruthyInt mem_buffer then mem_buffer.getD 0 * 1024 else 0
      usage_percent :=
        if total_bytes ≠ 0 then (used_bytes : ℚ) / (total_bytes : ℚ) * 100 else 0
      swap_total_bytes := swap_total_bytes
      swap_used_bytes := swap_used_bytes
      swap_free_bytes := swap_avail_bytes
      swap_usage_percent :=
        if swap_total_bytes ≠ 0 then (swap_used_bytes : ℚ) / (swap_total_bytes : ℚ) * 100
        else 0 }
  else
    {}

/-! ### Network scanner (`src/discovery/network_scanner.py`) -/

/-- A parsed CIDR network, as far as `ping_sweep` consumes it:
`ipaddress.ip_network(...).num_addresses` and the enumeration
`list(network.hosts())` of its host addresses. -/
structure IPNetwork where
  num_addresses : Nat
  hosts : List String

/-- `NetworkScanner.ping_sweep` target selection (network_scanner.py
lines 179-184): subnets with more than 1024 addresses are capped to the
first 256 hosts; all others are enumerated fully.  Each selected host
gets exactly one ping task (lines 191-199). -/
def pingSweepTargets (net : IPNetwork) : List String :=
  if net.num_addresses > 1024 then net.hosts.take 256 else net.hosts

/-! ### Spec-side comparison definitions and concrete fixtures -/

/-- First name in the list that is non-empty and not the sentinel
`"unknown"`, else the default — the selection rule `display_name`
actually implements (each branch of models.py lines 38-47 tests both
truthiness and `!= "unknown"`). -/
def firstGoodName : List String → String → String
  | [], d => d
  | s :: rest, d => if s ≠ "" ∧ s ≠ "unknown" then s else firstGoodName rest d

/-- Modelled from the spec: the §4.3 priority ladder
`snmp(4) > ssh(3) > local(2) > arp(1) = ping(1) > other(0)`, which ranks
`ping` at 1 (the source's `method_priority` dict has no `ping` entry and
defaults it to 0). -/
def specMethodPriority (m : String) : Nat :=
  if m = "snmp" then 4
  else if m = "ssh" then 3
  else if m = "local" then 2
  else if m = "arp" ∨ m = "ping" then 1
  else 0

/-- The five-OID projection of spec §8 scenario 3 (agent scalars plus two
machine-table cells), in sorted order. -/
def walkEntries : Entries :=
  [([1, 3, 6, 1, 4, 1, 99999, 1, 1, 1, 0], .str "1.0.0"),
   ([1, 3, 6, 1, 4, 1, 99999, 1, 1, 2, 0], .int 12345),
   ([1, 3, 6, 1, 4, 1, 99999, 1, 1, 3, 0], .int 1),
   ([1, 3, 6, 1, 4, 1, 99999, 1, 2, 1, 1, 1], .int 1),
   ([1, 3, 6, 1, 4, 1, 99999, 1, 2, 1, 1, 2], .str "10.0.0.5")]

/-- The rebroadcast OID of spec §8 scenario 6. -/
def rebroadcastDemoOid : Oid := [1, 3, 6, 1, 4, 1, 99999, 1, 100, 1]

/-- A machine with every name slot at its dataclass default and only the
IP set (models.py defaults `hostname = "unknown"`). -/
def c7cexMachine : MachineInfo := { ip := "10.0.0.5" }

def c3mUnknown : MachineInfo := { ip := "10.0.0.5", collection_method := "unknown" }

def c3mPing : MachineInfo := { ip := "10.0.0.5", collection_method := "ping" }

def c4Existing : MachineInfo := { ip := "10.0.0.9", snmp_active := true }

def c4Store : DataManagerState := { machines := [("10.0.0.9", c4Existing)] }

def c4Snap : HardwareSnapshot := { machine := { ip := "10.0.0.9", snmp_active := false } }

def c10Store : DataManagerState :=
  { machines := [("10.0.0.1", { ip := "10.0.0.1" }), ("10.0.0.2", { ip := "10.0.0.2" })]
    snapshots := [("10.0.0.1", { machine := { ip := "10.0.0.1" } })] }

def bigNet : IPNetwork := { num_addresses := 2048, hosts := List.replicate 2046 "10.0.0.0" }

def smallNet : IPNetwork := { num_addresses := 256, hosts := List.replicate 254 "10.1.0.0" }

/-- `ms.foldl add_machine st`: a sequence of `add_machine` calls. -/
def addMachineSeq (ms : List MachineInfo) (st : DataManagerState) : DataManagerState :=
  ms.foldl add_machine st

/-- The GETBULK request OIDs of spec §8 scenario 4. -/
def bulkDemoOids : List Oid :=
  [[1, 3, 6, 1, 4, 1, 99999, 1, 1, 1, 0], [1, 3, 6, 1, 4, 1, 99999, 1, 2, 1, 1, 1]]

def walkTargetMid : Oid := [1, 3, 6, 1, 4, 1, 99999, 1, 1, 3, 0]

def walkTargetEnd : Oid := [1, 3, 6, 1, 4, 1, 99999, 1, 2, 1, 1, 2]

/-! ## Helper lemmas on the dict model -/

theorem dictLookup_dictDel_self {α : Type} (l : List (String × α)) (k : String) :
    dictLookup (dictDel l k) k = none := by
  induction l with
  | nil => rfl
  | cons e rest ih =>
    by_cases he : e.1 = k
    · simpa [dictDel, List.filter_cons, he] using ih
    · simpa [dictDel, List.filter_cons, he, dictLookup] using ih

theorem dictLookup_dictDel_ne {α : Type} (l : List (String × α)) (k k' : String)
    (h : k' ≠ k) : dictLookup (dictDel l k) k' = dictLookup l k' := by
  induction l with
  | nil => rfl
  | cons e rest ih =>
    by_cases he : e.1 = k
    · simpa [dictDel, List.filter_cons, he, dictLookup, Ne.symm h] using ih
    · by_cases he' : e.1 = k'
      · simp [dictDel, List.filter_cons, he, dictLookup, he', h]
      · simpa [dictDel, List.filter_cons, he, dictLookup, he'] using ih

theorem dictSet_cons_ne {α : Type} (e : String × α) (rest : List (String × α))
    (k : String) (v : α) (he : ¬ e.1 = k) :
    dictSet (e :: rest) k v = e :: dictSet rest k v := by
  by_cases hr : rest.any (fun x => decide (x.1 = k))
  · simp [dictSet, List.any_cons, he, hr]
  · simp [dictSet, List.any_cons, he, hr]

theorem dictLookup_dictSet_self {α : Type} (l : List (String × α)) (k : String) (v : α) :
    dictLookup (dictSet l k v) k = some v := by
  induction l with
  | nil => simp [dictSet, dictLookup]
  | cons e rest ih =>
    by_cases he : e.1 = k
    · simp [dictSet, List.any_cons, he, dictLookup]
    · rw [dictSet_cons_ne e rest k v he, dictLookup, if_neg he]
      exact ih

/-! ## C10 — frame property of `remove_machine` -/

/-- C10: `remove_machine ip` deletes the entry for `ip` from both the
machines map and the snapshots map, leaves every other IP's entries in
both maps unchanged, and afterwards `get_machine ip` and
`get_snapshot ip` both return `none`. -/
theorem remove_machine_frame (st : DataManagerState) (ip ip' : String) (h : ip' ≠ ip) :
    (remove_machine st ip).get_machine ip = none ∧
    (remove_machine st ip).get_snapshot ip = none ∧
    (remove_machine st ip).get_machine ip' = st.get_machine ip' ∧
    (remove_machine st ip).get_snapshot ip' = st.get_snapshot ip' := by
  refine ⟨?_, ?_, ?_, ?_⟩
  · exact dictLookup_dictDel_self st.machines ip
  · exact dictLookup_dictDel_self st.snapshots ip
  · exact dictLookup_dictDel_ne st.machines ip ip' h
  · exact dictLookup_dictDel_ne st.snapshots ip ip' h

theorem remove_machine_frame_witness :
    (remove_machine c10Store "10.0.0.1").get_machine "10.0.0.1" = none ∧
    (remove_machine c10Store "10.0.0.1").get_snapshot "10.0.0.1" = none ∧
    (remove_machine c10Store "10.0.0.1").get_machine "10.0.0.2" =
      c10Store.get_machine "10.0.0.2" ∧
    (remove_machine c10Store "10.0.0.1").get_snapshot "10.0.0.2" =
      c10Store.get_snapshot "10.0.0.2" :=
  remove_machine_frame c10Store "10.0.0.1" "10.0.0.2" (by decide)

/-! ## C7 — display-name selection -/

/-- C7 counterexample: the dataclass-default machine has all four
resolver slots empty and the non-empty hostname `"unknown"`, yet
`display_name` is the IP, not the hostname — the claim's "first
non-empty value" rule predicts the hostname here. -/
theorem display_name_unknown_hostname_cex :
    c7cexMachine.snmp_sysname = "" ∧ c7cexMachine.mdns_name = "" ∧
    c7cexMachine.netbios_name = "" ∧ c7cexMachine.dns_name = "" ∧
    c7cexMachine.hostname = "unknown" ∧ c7cexMachine.hostname ≠ "" ∧
    c7cexMachine.display_name = "10.0.0.5" ∧
    c7cexMachine.display_name ≠ c7cexMachine.hostname := by decide

/-- C7 amended: `display_name` is the total deterministic function
returning the first name slot among (snmp_sysname, mdns_name,
netbios_name, dns_name, hostname) that is non-empty *and* not the
sentinel `"unknown"`, with the IP as final fallback. -/
theorem display_name_first_good (m : MachineInfo) :
    m.display_name =
      firstGoodName [m.snmp_sysname, m.mdns_name, m.netbios_name, m.dns_name, m.hostname]
        m.ip := rfl

/-! ## C9 — ping-sweep bound -/

/-- C9: a subnet with more than 1024 addresses is capped to its first
256 host addresses (so at most 256 pings are issued for it), while a
subnet with at most 1024 addresses has its host list enumerated
fully. -/
theorem ping_sweep_bound (net : IPNetwork) :
    (1024 < net.num_addresses →
      pingSweepTargets net = net.hosts.take 256 ∧ (pingSweepTargets net).length ≤ 256) ∧
    (net.num_addresses ≤ 1024 → pingSweepTargets net = net.hosts) := by
  constructor
  · intro h
    have ht : pingSweepTargets net = net.hosts.take 256 := by
      simp [pingSweepTargets, h]
    refine ⟨ht, ?_⟩
    rw [ht]
    simp [List.length_take]
  · intro h
    rw [pingSweepTargets, if_neg (by omega)]

theorem ping_sweep_bound_witness :
    (pingSweepTargets bigNet).length ≤ 256 ∧ pingSweepTargets smallNet = smallNet.hosts :=
  ⟨((ping_sweep_bound bigNet).1 (by decide)).2, (ping_sweep_bound smallNet).2 (by decide)⟩

/-! ## C2 — community authentication -/

/-- C2 counterexample: with the read-community configured as
`"secret"`, a request carrying that very community is dropped
(`handle_snmp_message` compares against the literal `"public"`) — the
claim predicts a response whenever the request community equals the
configured read-community. -/
theorem community_not_configured_cex :
    ({ community_read := "secret" } : SNMPConfig).community_read = "secret" ∧
    handle_snmp_message walkEntries
      { community := "secret", requestId := 1,
        pdu := .getRequest [[1, 3, 6, 1, 4, 1, 99999, 1, 1, 1, 0]] } = none := by decide

/-- C2 amended: for every decodable v2c request, the agent sends a
response if and only if the request's community equals the hardcoded
literal `"public"`; any other community is dropped silently.  The
configured read-community is never consulted by `SimpleSNMPAgent`. -/
theorem community_hardcoded_public (entries : Entries) (msg : SnmpMessage) :
    (handle_snmp_message entries msg).isSome ↔ msg.community = "public" := by
  unfold handle_snmp_message
  split_ifs with h <;> simp [h]

/-! ## C8 — UCD memory arithmetic -/

/-- C8: with both UCD values non-zero, the collector's memory metrics
satisfy `total_bytes = memTotal·1024`,
`available_bytes = memAvail·1024`,
`used_bytes = total_bytes − available_bytes` and
`usage_percent = used_bytes / total_bytes · 100`. -/
theorem ucd_memory_arithmetic (t a : Int) (mc mb st sa : Option Int)
    (ht : t ≠ 0) (ha : a ≠ 0) :
    (collectMemoryFromUcd (some t) (some a) mc mb st sa).total_bytes = t * 1024 ∧
    (collectMemoryFromUcd (some t) (some a) mc mb st sa).available_bytes = a * 1024 ∧
    (collectMemoryFromUcd (some t) (some a) mc mb st sa).used_bytes =
      t * 1024 - a * 1024 ∧
    (collectMemoryFromUcd (some t) (some a) mc mb st sa).usage_percent =
      ((t * 1024 - a * 1024 : Int) : ℚ) / ((t * 1024 : Int) : ℚ) * 100 := by
  have h1024 : (t * 1024 : Int) ≠ 0 := mul_ne_zero ht (by norm_num)
  simp [collectMemoryFromUcd, pyTruthyInt, ht, ha, h1024]

theorem ucd_memory_arithmetic_witness :
    (collectMemoryFromUcd (some 1048576) (some 524288) none none none none).total_bytes =
      1073741824 ∧
    (collectMemoryFromUcd (some 1048576) (some 524288) none none none none).used_bytes =
      536870912 ∧
    (collectMemoryFromUcd (some 1048576) (some 524288) none none none none).usage_percent =
      50 := by
  obtain ⟨h1, h2, h3, h4⟩ :=
    ucd_memory_arithmetic 1048576 524288 none none none none (by norm_num) (by norm_num)
  refine ⟨?_, ?_, ?_⟩
  · rw [h1]; norm_num
  · rw [h3]; norm_num
  · rw [h4]; norm_num

/-! ## C4 — stickiness of `snmp_active` -/

/-- C4 counterexample: the store holds a machine with
`snmp_active = true`; an `update_snapshot` whose embedded machine has
`snmp_active = false` clears the stored flag, although the entry was
never removed. -/
theorem snmp_active_not_sticky_cex :
    (c4Store.get_machine "10.0.0.9").map (·.snmp_active) = some true ∧
    c4Snap.machine.snmp_active = false ∧
    ((update_snapshot c4Store c4Snap).get_machine "10.0.0.9").map (·.snmp_active) =
      some false := by decide

/-- C4 amended: `snmp_active` is sticky across `add_machine` merges
(the merged flag is the OR of the stored and incoming flags), but
`update_snapshot` replaces the stored machine record and takes
`snmp_active` verbatim from the snapshot's machine, so an
`update_snapshot` carrying `snmp_active = false` clears the flag. -/
theorem snmp_active_sticky_only_in_add_machine :
    (∀ existing new : MachineInfo,
      (mergeMachine existing new).snmp_active =
        (existing.snmp_active || new.snmp_active)) ∧
    (∀ (st : DataManagerState) (snap : HardwareSnapshot),
      ((update_snapshot st snap).get_machine snap.machine.ip).map (·.snmp_active) =
        some snap.machine.snmp_active) := by
  constructor
  · intro existing new
    rfl
  · intro st snap
    have h := dictLookup_dictSet_self st.machines snap.machine.ip
      (updateSnapshotMachine st snap)
    simp only [update_snapshot, DataManagerState.get_machine, h, Option.map_some]
    unfold updateSnapshotMachine
    cases dictLookup st.machines snap.machine.ip <;> rfl

/-! ## C3 — collection-method merge -/

theorem mergeMachine_method_priority (a b : MachineInfo) :
    method_priority (mergeMachine a b).collection_method =
      max (method_priority a.collection_method) (method_priority b.collection_method) := by
  by_cases h :
      method_priority b.collection_method > method_priority a.collection_method
  · simp only [mergeMachine, h, if_pos]
    omega
  · simp only [mergeMachine, h, if_neg, if_false]
    omega

theorem addMachineSeq_single (ip : String) (acc : MachineInfo)
    (snaps : List (String × HardwareSnapshot)) (ms : List MachineInfo)
    (h : ∀ x ∈ ms, x.ip = ip) :
    addMachineSeq ms ⟨[(ip, acc)], snaps⟩ = ⟨[(ip, ms.foldl mergeMachine acc)], snaps⟩ := by
  induction ms generalizing acc with
  | nil => rfl
  | cons x xs ih =>
    have hx : x.ip = ip := h x (List.mem_cons_self x xs)
    have hstep : add_machine ⟨[(ip, acc)], snaps⟩ x = ⟨[(ip, mergeMachine acc x)], snaps⟩ := by
      simp [add_machine, dictLookup, hx, dictSet, List.any_cons]
    have hrest : ∀ y ∈ xs, y.ip = ip := fun y hy => h y (List.mem_cons_of_mem x hy)
    calc addMachineSeq (x :: xs) ⟨[(ip, acc)], snaps⟩
        = addMachineSeq xs (add_machine ⟨[(ip, acc)], snaps⟩ x) := rfl
      _ = addMachineSeq xs ⟨[(ip, mergeMachine acc x)], snaps⟩ := by rw [hstep]
      _ = ⟨[(ip, xs.foldl mergeMachine (mergeMachine acc x))], snaps⟩ := ih _ hrest
      _ = ⟨[(ip, (x :: xs).foldl mergeMachine acc)], snaps⟩ := by rw [List.foldl_cons]

theorem foldl_merge_priority (acc : MachineInfo) (ms : List MachineInfo) :
    method_priority (ms.foldl mergeMachine acc).collection_method =
      (ms.map (fun x => method_priority x.collection_method)).foldl max
        (method_priority acc.collection_method) := by
  induction ms generalizing acc with
  | nil => rfl
  | cons x xs ih =>
    simp only [List.foldl_cons, List.map_cons]
    rw [ih]
    congr 1
    exact mergeMachine_method_priority acc x

/-- C3 amended: `add_machine` never demotes the stored
`collection_method`, and for any same-IP sequence the stored method's
priority equals the running maximum of all inputs' priorities — under
the ladder the code actually implements,
`snmp(4) > ssh(3) > local(2) > arp(1) > other(0)`, in which `ping`
(absent from the `method_priority` dict) ranks 0, not 1. -/
theorem collection_method_merge_max :
    (∀ existing new : MachineInfo,
      method_priority existing.collection_method ≤
        method_priority (mergeMachine existing new).collection_method) ∧
    (∀ (m : MachineInfo) (ms : List MachineInfo), (∀ x ∈ ms, x.ip = m.ip) →
      ∃ mi : MachineInfo,
        (addMachineSeq ms (add_machine {} m)).get_machine m.ip = some mi ∧
        method_priority mi.collection_method =
          (ms.map (fun x => method_priority x.collection_method)).foldl max
            (method_priority m.collection_method)) := by
  constructor
  · intro a b
    rw [mergeMachine_method_priority]
    exact le_max_left _ _
  · intro m ms h
    have h0 : add_machine {} m = ⟨[(m.ip, m)], []⟩ := by
      simp [add_machine, dictLookup, dictSet]
    rw [h0, addMachineSeq_single m.ip m [] ms h]
    exact ⟨ms.foldl mergeMachine m, by simp [DataManagerState.get_machine, dictLookup],
      foldl_merge_priority m ms⟩

theorem collection_method_merge_max_witness :
    method_priority c3mUnknown.collection_method ≤
      method_priority (mergeMachine c3mUnknown c3mPing).collection_method ∧
    ∃ mi : MachineInfo,
      (addMachineSeq [c3mPing] (add_machine {} c3mUnknown)).get_machine c3mUnknown.ip =
        some mi ∧
      method_priority mi.collection_method =
        ([c3mPing].map (fun x => method_priority x.collection_method)).foldl max
          (method_priority c3mUnknown.collection_method) :=
  ⟨collection_method_merge_max.1 c3mUnknown c3mPing,
   collection_method_merge_max.2 c3mUnknown [c3mPing] (by decide)⟩

/-- C3 counterexample: after `add_machine` of a machine with method
`"unknown"` followed by one with method `"ping"`, the stored method is
still `"unknown"` — although the claim's ladder ranks `ping` at 1,
strictly above rank-0 `unknown`, and so predicts promotion to
`"ping"`. -/
theorem ping_not_promoted_cex :
    ((addMachineSeq [c3mPing] (add_machine {} c3mUnknown)).get_machine "10.0.0.5").map
        (·.collection_method) = some "unknown" ∧
    specMethodPriority c3mPing.collection_method >
      specMethodPriority c3mUnknown.collection_method := by decide

/-! ## Lemmas on the sorted OID scan -/

theorem getNextEntry_none_iff (entries : Entries) (o : Oid) :
    getNextEntry entries o = none ↔ strictSuccCount entries o = 0 := by
  rw [getNextEntry, List.find?_eq_none, strictSuccCount, List.length_eq_zero,
    List.filter_eq_nil_iff]

theorem getNextEntry_mem {entries : Entries} {o : Oid} {e : Oid × SnmpVal}
    (h : getNextEntry entries o = some e) : e ∈ entries ∧ oidLt o e.1 = true := by
  rw [getNextEntry] at h
  have hp := List.find?_some h
  exact ⟨List.mem_of_find?_eq_some h, hp⟩

theorem getNextEntry_least :
    ∀ (entries : Entries), SortedEntries entries →
      ∀ (o : Oid) (e : Oid × SnmpVal), getNextEntry entries o = some e →
        ∀ e' ∈ entries, oidLt o e'.1 = true → e'.1 = e.1 ∨ oidLt e.1 e'.1 = true := by
  intro entries
  induction entries with
  | nil => intro _ o e h; simp [getNextEntry] at h
  | cons a rest ih =>
    intro hs o e h
    rw [SortedEntries, List.pairwise_cons] at hs
    obtain ⟨ha_all, hrest⟩ := hs
    rw [getNextEntry] at h
    by_cases hpa : oidLt o a.1 = true
    · have hpab : (fun x : Oid × SnmpVal => oidLt o x.1) a = true := hpa
      rw [List.find?_cons_of_pos rest hpab] at h
      have hea : a = e := Option.some.inj h
      subst hea
      intro e' he' hlt
      rcases List.mem_cons.mp he' with rfl | hmem
      · exact Or.inl rfl
      · exact Or.inr (ha_all e' hmem)
    · have hpab : ¬ (fun x : Oid × SnmpVal => oidLt o x.1) a = true := hpa
      rw [List.find?_cons_of_neg rest hpab] at h
      intro e' he' hlt
      rcases List.mem_cons.mp he' with rfl | hmem
      · exact absurd hlt hpa
      · exact ih hrest o e h e' hmem hlt

theorem strictSuccCount_step :
    ∀ (entries : Entries), SortedEntries entries →
      ∀ (o : Oid) (e : Oid × SnmpVal), getNextEntry entries o = some e →
        strictSuccCount entries o = strictSuccCount entries e.1 + 1 := by
  intro entries
  induction entries with
  | nil => intro _ o e h; simp [getNextEntry] at h
  | cons a rest ih =>
    intro hs o e h
    rw [SortedEntries, List.pairwise_cons] at hs
    obtain ⟨ha_all, hrest⟩ := hs
    rw [getNextEntry] at h
    by_cases hpa : oidLt o a.1 = true
    · have hpab : (fun x : Oid × SnmpVal => oidLt o x.1) a = true := hpa
      rw [List.find?_cons_of_pos rest hpab] at h
      have hea : a = e := Option.some.inj h
      subst hea
      have hfo : rest.filter (fun x => oidLt o x.1) = rest :=
        List.filter_eq_self.mpr (fun b hb => by
          simpa using oidLt_trans hpa (by simpa using ha_all b hb))
      have hfa : rest.filter (fun x => oidLt a.1 x.1) = rest :=
        List.filter_eq_self.mpr (fun b hb => by simpa using ha_all b hb)
      rw [strictSuccCount, List.filter_cons, strictSuccCount, List.filter_cons]
      simp [hpa, oidLt_irrefl, hfo, hfa]
    · have hpab : ¬ (fun x : Oid × SnmpVal => oidLt o x.1) a = true := hpa
      rw [List.find?_cons_of_neg rest hpab] at h
      have hmem := List.mem_of_find?_eq_some h
      have hnea : oidLt e.1 a.1 = false := oidLt_asymm (ha_all e hmem)
      have ihh := ih hrest o e (by rw [getNextEntry]; exact h)
      rw [strictSuccCount, List.filter_cons, strictSuccCount, List.filter_cons]
      simp only [hpa, hnea, Bool.false_eq_true, if_false]
      simpa [strictSuccCount] using ihh

theorem bulkRepeat_length (entries : Entries) (hs : SortedEntries entries) :
    ∀ (fuel : Nat) (o : Oid),
      (bulkRepeat entries o fuel).length =
        if fuel = 0 then 0 else min fuel (strictSuccCount entries o + 1) := by
  intro fuel
  induction fuel with
  | zero => intro o; rfl
  | succ n ih =>
    intro o
    cases hfind : getNextEntry entries o with
    | none =>
      have h0 : strictSuccCount entries o = 0 := (getNextEntry_none_iff entries o).mp hfind
      simp [bulkRepeat, hfind, h0]
    | some e =>
      have hstep := strictSuccCount_step entries hs o e hfind
      simp only [bulkRepeat, hfind, List.length_cons, ih e.1]
      rw [hstep]
      by_cases hn : n = 0
      · simp [hn]
      · simp only [hn, if_false, Nat.succ_ne_zero]
        omega

/-! ## C6 — GETNEXT totality -/

/-- C6: over a sorted projection, GETNEXT on `O` returns the least table
key strictly greater than `O` together with its stored value whenever
such a key exists, and returns `(O, endOfMibView)` whenever no table key
exceeds `O` (i.e. `O` is at or beyond the largest projected OID). -/
theorem getnext_totality (entries : Entries) (hs : SortedEntries entries) (o : Oid) :
    ((∃ e ∈ entries, oidLt o e.1 = true) →
      ∃ e ∈ entries, handleGetNextVb entries o = (e.1, .val (toSnmpValue e.2)) ∧
        oidLt o e.1 = true ∧
        ∀ e' ∈ entries, oidLt o e'.1 = true → e'.1 = e.1 ∨ oidLt e.1 e'.1 = true) ∧
    ((∀ e ∈ entries, oidLt o e.1 = false) →
      handleGetNextVb entries o = (o, .endOfMibView)) := by
  constructor
  · rintro ⟨w, hw, hlt⟩
    have hsome : (getNextEntry entries o).isSome := by
      rw [getNextEntry, List.find?_isSome]
      exact ⟨w, hw, hlt⟩
    obtain ⟨e, he⟩ := Option.isSome_iff_exists.mp hsome
    obtain ⟨hmem, hlt'⟩ := getNextEntry_mem he
    refine ⟨e, hmem, ?_, hlt', getNextEntry_least entries hs o e he⟩
    rw [handleGetNextVb, he]
  · intro hnone
    have hn : getNextEntry entries o = none := by
      rw [getNextEntry, List.find?_eq_none]
      intro x hx
      simp [hnone x hx]
    rw [handleGetNextVb, hn]

theorem getnext_totality_witness :
    (∃ e ∈ walkEntries,
      handleGetNextVb walkEntries walkTargetMid = (e.1, .val (toSnmpValue e.2)) ∧
        oidLt walkTargetMid e.1 = true ∧
        ∀ e' ∈ walkEntries, oidLt walkTargetMid e'.1 = true →
          e'.1 = e.1 ∨ oidLt e.1 e'.1 = true) ∧
    handleGetNextVb walkEntries walkTargetEnd = (walkTargetEnd, .endOfMibView) :=
  ⟨(getnext_totality walkEntries (by unfold SortedEntries; decide) walkTargetMid).1
      (by decide),
   (getnext_totality walkEntries (by unfold SortedEntries; decide) walkTargetEnd).2
      (by decide)⟩

/-! ## C5 — GETBULK composition -/

/-- C5 counterexample: with a five-key projection, GETBULK with
`non_repeaters = 0`, `max_repetitions = 3` and one var-bind at the last
key yields a single binding (one `endOfMibView`, after which the stream
stops) — not the `0 + 3·1 = 3` bindings the claim requires. -/
theorem getbulk_count_cex :
    (handleGetBulk walkEntries 0 3 [[1, 3, 6, 1, 4, 1, 99999, 1, 2, 1, 1, 2]]).length = 1 ∧
    (1 : Nat) ≠ 0 + 3 * 1 := by decide

/-- C5 amended: for `k ≤ n` the response has exactly
`k + Σ over repeater OIDs o of (if r = 0 then 0 else min r (s(o) + 1))`
bindings, where `s(o)` counts the projected OIDs strictly greater than
`o` — a truncated stream contributes its remaining successors plus a
single `endOfMibView`, not `r` padded bindings — and in particular the
total is at most `k + r·(n − k)`. -/
theorem getbulk_composition (entries : Entries) (hs : SortedEntries entries)
    (k r : Nat) (oids : List Oid) (hk : k ≤ oids.length) :
    (handleGetBulk entries k r oids).length =
      k + ((oids.drop k).map
        (fun o => if r = 0 then 0 else min r (strictSuccCount entries o + 1))).sum ∧
    (handleGetBulk entries k r oids).length ≤ k + r * (oids.length - k) := by
  have hflat : ∀ l : List Oid,
      (l.flatMap (fun o => bulkRepeat entries o r)).length =
        (l.map (fun o => if r = 0 then 0 else min r (strictSuccCount entries o + 1))).sum := by
    intro l
    induction l with
    | nil => rfl
    | cons x xs ih =>
      rw [List.flatMap_cons, List.length_append, ih, List.map_cons, List.sum_cons,
        bulkRepeat_length entries hs r x]
  have hmain : (handleGetBulk entries k r oids).length =
      k + ((oids.drop k).map
        (fun o => if r = 0 then 0 else min r (strictSuccCount entries o + 1))).sum := by
    rw [handleGetBulk, List.length_append, List.length_map, List.length_take,
      hflat (oids.drop k), Nat.min_eq_left hk]
  refine ⟨hmain, ?_⟩
  rw [hmain]
  have hbound : ∀ x ∈ (oids.drop k).map
      (fun o => if r = 0 then 0 else min r (strictSuccCount entries o + 1)), x ≤ r := by
    intro x hx
    obtain ⟨o, _, rfl⟩ := List.mem_map.mp hx
    split_ifs <;> omega
  have hsum := List.sum_le_card_nsmul _ r hbound
  rw [List.length_map, List.length_drop] at hsum
  simp only [smul_eq_mul] at hsum
  rw [Nat.mul_comm] at hsum
  omega

theorem getbulk_composition_witness :
    (handleGetBulk walkEntries 1 2 bulkDemoOids).length =
      1 + ((bulkDemoOids.drop 1).map
        (fun o => if 2 = 0 then 0 else min 2 (strictSuccCount walkEntries o + 1))).sum ∧
    (handleGetBulk walkEntries 1 2 bulkDemoOids).length ≤ 1 + 2 * (bulkDemoOids.length - 1) :=
  getbulk_composition walkEntries (by unfold SortedEntries; decide) 1 2 bulkDemoOids
    (by decide)

/-! ## C1 — MQTT rebroadcast -/

theorem alookup_eq_none (l : Entries) (k : Oid) (h : ∀ e ∈ l, e.1 ≠ k) :
    alookup l k = none := by
  induction l with
  | nil => rfl
  | cons e rest ih =>
    rw [alookup, if_neg (h e (List.mem_cons_self e rest))]
    exact ih (fun x hx => h x (List.mem_cons_of_mem e hx))

theorem addMachineOids_key_length (idx : Nat) (snap : HardwareSnapshot) :
    ∀ e ∈ addMachineOids idx snap, 11 ≤ e.1.length := by
  intro e he
  simp only [addMachineOids, List.mem_append, List.mem_cons, List.not_mem_nil, or_false,
    List.mem_flatMap] at he
  rcases he with
    (he | he | he | he | he | he | he | he | he | he | he |
     he | he | he | he | he | he | he | he | he | he) |
    ⟨p, hp, he | he | he | he | he | he | he⟩
  all_goals subst he
  all_goals
    simp [MACHINE_INDEX_OID, MACHINE_IP_OID, MACHINE_HOSTNAME_OID, MACHINE_OS_TYPE_OID,
      MACHINE_UPTIME_OID, MACHINE_STATUS_OID, CPU_INDEX_OID, CPU_USAGE_PERCENT_OID,
      CPU_CORE_COUNT_OID, CPU_THREAD_COUNT_OID, CPU_FREQUENCY_MHZ_OID, CPU_TEMPERATURE_OID,
      CPU_LOAD_1M_OID, CPU_LOAD_5M_OID, CPU_LOAD_15M_OID, CPU_MODEL_OID, MEM_INDEX_OID,
      MEM_TOTAL_BYTES_OID, MEM_USED_BYTES_OID, MEM_AVAILABLE_BYTES_OID,
      MEM_USAGE_PERCENT_OID, STORAGE_DEVICE_OID, STORAGE_MOUNT_POINT_OID,
      STORAGE_FS_TYPE_OID, STORAGE_TOTAL_BYTES_OID, STORAGE_USED_BYTES_OID,
      STORAGE_FREE_BYTES_OID, STORAGE_USAGE_PERCENT_OID, List.length_append]

theorem updateData_key_length (up : Nat) (snaps : List (String × HardwareSnapshot)) :
    ∀ e ∈ updateData up snaps, 11 ≤ e.1.length := by
  intro e he
  simp only [updateData, List.mem_append, List.mem_cons, List.not_mem_nil, or_false,
    List.mem_flatMap] at he
  rcases he with (he | he | he) | ⟨p, hp, he⟩
  · subst he; simp [AGENT_VERSION_OID]
  · subst he; simp [AGENT_UPTIME_OID]
  · subst he; simp [MACHINE_COUNT_OID]
  · exact addMachineOids_key_length _ _ e he

/-- C1: the projection `SimpleSNMPAgent._update_data` builds contains
only the three agent scalars and machine/cpu/memory/storage table cells
— every key has at least 11 components — so the ten-component
rebroadcast OID `1.3.6.1.4.1.99999.1.100.1` is never present, and a GET
for it answers `noSuchInstance` for *every* fleet-store state.  (The
rebroadcast write itself can never reach the store:
`src/web/api.py` line 418 invokes `data_manager.update_custom_metric`,
a method the `DataManager` class does not define, so the call raises
`AttributeError`, swallowed by the handler's `except` at line 420; and
`HardwareSnapshot` has no `custom_metrics` field for the agent to
project.) -/
theorem rebroadcast_oid_never_served (up : Nat)
    (snaps : List (String × HardwareSnapshot)) :
    handleGetVb (updateData up snaps) rebroadcastDemoOid =
      (rebroadcastDemoOid, .noSuchInstance) := by
  have hnone : alookup (updateData up snaps) rebroadcastDemoOid = none := by
    apply alookup_eq_none
    intro e he heq
    have h11 := updateData_key_length up snaps e he
    rw [heq] at h11
    simp [rebroadcastDemoOid] at h11
  simp [handleGetVb, hnone]

end SnmpAgent
